import Mathlib

/-!
Verification of the audio capture and controlled-recording subsystem of
DexterMeetAgent (src/audio_capture.py, src/main.py, src/config.py).

The Python code is shallowly embedded: pure fragments become Lean functions,
stateful methods become explicit state-passing functions, `numpy` float32
samples are modelled as exact rationals (the float literals 0.3, 1e-4, 1.5 and
0.2 of the source are mapped to the rationals 3/10, 1/10000, 3/2 and 1/5), and
side effects that matter to the specification (sleeps, process control, thread
spawns, status posts) are reified as event traces.  Operations that the source
performs under `buffer_lock` are atomic, so any concurrent execution is
equivalent to some serialisation; the buffer theorems therefore quantify over
arbitrary finite operation sequences.
-/

/-- Mirrors `config.AudioConfig` (src/config.py lines 9 to 16) with its default
field values: sample_rate 16000, chunk_size 1024, channels 1,
end_buffer_seconds 1.5. -/
structure AudioConfig where
  sampleRate : Nat
  chunkSize : Nat
  channels : Nat
  endBufferSeconds : ℚ
deriving DecidableEq

/-- The global `config.audio` instance with the dataclass defaults. -/
def audioConfig : AudioConfig :=
  ⟨16000, 1024, 1, 3/2⟩

/-- Mirrors the `AudioDevice` dataclass (src/audio_capture.py lines 22 to 29):
index, name, channels (`maxInputChannels`), sample_rate, is_input. -/
structure AudioDevice where
  index : Nat
  name : String
  channels : Nat
  sampleRate : Nat
  isInput : Bool
deriving DecidableEq

/-- Whether `needle` occurs at the start of `hay` (character lists). -/
def startsWithChars : List Char → List Char → Bool
  | [], _ => true
  | _ :: _, [] => false
  | a :: as, b :: bs => a == b && startsWithChars as bs

/-- Whether `needle` occurs anywhere inside `hay`; models the Python
substring test `needle in hay`. -/
def substrChars (needle : List Char) : List Char → Bool
  | [] => needle.isEmpty
  | hd :: tl => startsWithChars needle (hd :: tl) || substrChars needle tl

/-- Models `s.lower()` on the character level. -/
def lowerChars (s : String) : List Char :=
  s.toList.map Char.toLower

/-- Models the Python idiom `token in device.name.lower()` used throughout
`find_monitor_device`. -/
def nameHas (d : AudioDevice) (token : String) : Bool :=
  substrChars token.toList (lowerChars d.name)

/-- Strategy 1 of `find_monitor_device` (src/audio_capture.py lines 123 to
128): an input device whose lowered name contains both "monitor" and
"analog". -/
def monRule1 (d : AudioDevice) : Bool :=
  d.isInput && nameHas d "monitor" && nameHas d "analog"

/-- Strategy 2 (lines 131 to 134): an input device whose lowered name contains
"pipewire". -/
def monRule2 (d : AudioDevice) : Bool :=
  d.isInput && nameHas d "pipewire"

/-- Strategy 3 (lines 137 to 140): an input device whose lowered name contains
"default" as a substring (the source tests `"default" in device.name.lower()`,
not equality). -/
def monRule3 (d : AudioDevice) : Bool :=
  d.isInput && nameHas d "default"

/-- Strategy 4 (lines 143 to 148): an input device whose lowered name contains
"analog" or "alc892", with at least one channel. -/
def monRule4 (d : AudioDevice) : Bool :=
  d.isInput && (nameHas d "analog" || nameHas d "alc892") && 1 ≤ d.channels

/-- A Python `for device in devices: if p(device): return device` loop. -/
def findFirstDevice (p : AudioDevice → Bool) : List AudioDevice → Option AudioDevice
  | [] => none
  | d :: rest => if p d then some d else findFirstDevice p rest

/-- `AudioCapture.find_monitor_device` (src/audio_capture.py lines 110 to 152):
four ordered linear scans of the inventory, first match wins, `None` when all
four fail. -/
def findMonitorDevice (ds : List AudioDevice) : Option AudioDevice :=
  match findFirstDevice monRule1 ds with
  | some d => some d
  | none =>
    match findFirstDevice monRule2 ds with
    | some d => some d
    | none =>
      match findFirstDevice monRule3 ds with
      | some d => some d
      | none => findFirstDevice monRule4 ds

/-- Rule 3 exactly as claim C6 words it: a device literally named
"default" (kept alongside the source definition to compare the two). -/
def monRule3Literal (d : AudioDevice) : Bool :=
  d.isInput && d.name == "default"

/-- The monitor policy exactly as claim C6 words it, differing from the source
only in rule 3 (literal name equality instead of substring containment). -/
def findMonitorDeviceClaimC6 (ds : List AudioDevice) : Option AudioDevice :=
  match findFirstDevice monRule1 ds with
  | some d => some d
  | none =>
    match findFirstDevice monRule2 ds with
    | some d => some d
    | none =>
      match findFirstDevice monRule3Literal ds with
      | some d => some d
      | none => findFirstDevice monRule4 ds

/-- The monitor policy restated from the amended spec wording as a chain of
`List.find?` first-match searches over the four ordered rules. -/
def findMonitorDeviceSpec (ds : List AudioDevice) : Option AudioDevice :=
  ((ds.find? monRule1).orElse fun _ =>
    ((ds.find? monRule2).orElse fun _ =>
      ((ds.find? monRule3).orElse fun _ => ds.find? monRule4)))

/-- Concrete inventory from the spec example: an HDA analog monitor. -/
def hdaMonitorDevice : AudioDevice :=
  ⟨0, "HDA Analog Monitor", 2, 44100, true⟩

/-- Concrete inventory from the spec example: the PipeWire virtual device. -/
def pipewireDevice : AudioDevice :=
  ⟨1, "PipeWire", 1, 44100, true⟩

/-- Concrete inventory from the spec example: a USB webcam microphone. -/
def micUsbDevice : AudioDevice :=
  ⟨2, "Mic USB Webcam", 1, 44100, true⟩

/-- The device inventory named in the spec example for claim C6. -/
def exampleInventory : List AudioDevice :=
  [hdaMonitorDevice, pipewireDevice, micUsbDevice]

/-- An input device named "sysdefault" (a standard ALSA device name): it is not
literally named "default" but contains it as a substring. -/
def sysdefaultDevice : AudioDevice :=
  ⟨0, "sysdefault", 1, 44100, true⟩

/-- A Python `queue.Queue`: `maxsize` 0 means no size bound (CPython
semantics). `items` holds the queued elements, front first. -/
structure PyQueue (α : Type) where
  maxsize : Nat
  items : List α
deriving DecidableEq

/-- `Queue.put_nowait`: raises `queue.Full` exactly when `0 < maxsize` and the
queue already holds `maxsize` items; the code at src/audio_capture.py lines
204 to 208 catches `queue.Full` and discards the frame, so a `false` flag
means the frame was dropped with a warning. -/
def putNowait {α : Type} (q : PyQueue α) (x : α) : PyQueue α × Bool :=
  if 0 < q.maxsize ∧ q.maxsize ≤ q.items.length then (q, false)
  else ({ q with items := q.items ++ [x] }, true)

/-- `self.audio_queue = queue.Queue()` (src/audio_capture.py line 38): default
construction, hence `maxsize = 0`. -/
def newAudioQueue : PyQueue (List ℚ) :=
  ⟨0, []⟩

/-- Push a list of frames one by one through `putNowait`, keeping the queue. -/
def pushAll {α : Type} (q : PyQueue α) : List α → PyQueue α
  | [] => q
  | x :: xs => pushAll (putNowait q x).1 xs

/-- Whether every push in the sequence succeeded (none raised `queue.Full`). -/
def pushAllSucceeds {α : Type} (q : PyQueue α) : List α → Bool
  | [] => true
  | x :: xs => (putNowait q x).2 && pushAllSucceeds (putNowait q x).1 xs

/-- One lock-protected append of a frame to `self.audio_buffer`
(src/audio_capture.py lines 201 to 202 and 327 to 328). -/
def audioCallbackAppend (buf : List (List ℚ)) (frame : List ℚ) : List (List ℚ) :=
  buf ++ [frame]

/-- `AudioCapture.get_buffered_audio` (src/audio_capture.py lines 219 to 231):
returns the concatenation of all buffered frames and, when `clearBuffer` is
set, empties the buffer; an already-empty buffer returns an empty array
unchanged.  Result: (returned sample array, buffer afterwards). -/
def getBufferedAudio (buf : List (List ℚ)) (clearBuffer : Bool) : List ℚ × List (List ℚ) :=
  if buf.isEmpty then ([], buf)
  else (buf.flatten, if clearBuffer then [] else buf)

/-- One lock-atomic operation on the sample buffer: a producer appending one
frame, or a consumer draining with `clear_buffer=True`. -/
inductive BufOp
  | append (frame : List ℚ)
  | drain
deriving DecidableEq

/-- Runs a serialised sequence of buffer operations from a starting buffer.
Returns (final buffer, the sample arrays returned by the drains in order). -/
def runBufOps : List (List ℚ) → List BufOp → List (List ℚ) × List (List ℚ)
  | buf, [] => (buf, [])
  | buf, BufOp.append f :: rest => runBufOps (audioCallbackAppend buf f) rest
  | buf, BufOp.drain :: rest =>
    let r := runBufOps (getBufferedAudio buf true).2 rest
    (r.1, (getBufferedAudio buf true).1 :: r.2)

/-- The frames appended by a sequence of buffer operations, in order. -/
def appendsOf : List BufOp → List (List ℚ)
  | [] => []
  | BufOp.append f :: rest => f :: appendsOf rest
  | BufOp.drain :: rest => appendsOf rest

/-- Whether the final operation of the sequence is a drain. -/
def endsWithDrain : List BufOp → Bool
  | [] => false
  | [BufOp.append _] => false
  | [BufOp.drain] => true
  | _ :: op :: rest => endsWithDrain (op :: rest)

/-- Shared mutable state of one `AudioCapture` instance: the `is_recording`
flag, the lock-protected sample buffer, the delivery queue, and whether a
PyAudio stream or a parec process is currently open. -/
structure CaptureState where
  isRecording : Bool
  audioBuffer : List (List ℚ)
  audioQueue : PyQueue (List ℚ)
  streamOpen : Bool
  parecOpen : Bool
deriving DecidableEq

/-- `AudioCapture.start_capture` (src/audio_capture.py lines 154 to 187).
Returns False immediately when a capture is already active; otherwise resolves
the device (via `find_monitor_device` when no index is given) and opens the
stream, whose success is injected as `openOk` (an exception inside
`pyaudio.open` is caught and reported as False). -/
def startCapture (c : CaptureState) (deviceIndex : Option Nat)
    (devices : List AudioDevice) (openOk : Bool) : Bool × CaptureState :=
  if c.isRecording then (false, c)
  else
    let ix : Option Nat :=
      match deviceIndex with
      | some i => some i
      | none => (findMonitorDevice devices).map (fun d => d.index)
    match ix with
    | none => (false, c)
    | some _ =>
      if openOk then (true, { c with streamOpen := true, isRecording := true })
      else (false, c)

/-- `AudioCapture.start_monitor_capture_parec` (src/audio_capture.py lines 260
to 297).  Returns False immediately when a capture is already active;
otherwise spawns the parec process (success injected as `spawnOk`; a raised
exception is caught and reported as False), sets the flag, and starts the
reader thread. -/
def startMonitorCaptureParec (c : CaptureState) (spawnOk : Bool) : Bool × CaptureState :=
  if c.isRecording then (false, c)
  else if spawnOk then (true, { c with isRecording := true, parecOpen := true })
  else (false, c)

/-- The device name hard-coded at src/audio_capture.py line 271. -/
def hardcodedMonitorSource : String :=
  "alsa_output.pci-0000_08_00.6.analog-stereo.monitor"

/-- The argument vector of the `subprocess.Popen` call at src/audio_capture.py
lines 276 to 283. -/
def parecCommand : List String :=
  ["parec", "--device", hardcodedMonitorSource,
   "--rate", toString audioConfig.sampleRate,
   "--channels", "1", "--format", "s16le", "--raw"]

/-- The argument vector claim C7 describes: identical to the source command
except that the device argument is the monitor source the selector chose. -/
def parecCommandClaimC7 (selectedSource : String) : List String :=
  ["parec", "--device", selectedSource,
   "--rate", toString audioConfig.sampleRate,
   "--channels", "1", "--format", "s16le", "--raw"]

/-- `AudioCapture._parec_capture_loop` (src/audio_capture.py lines 299 to 346)
as a function of the successive chunks the blocking reads return.  Each
iteration first re-checks `is_recording` and process liveness, stops on an
empty read, and otherwise appends the chunk to the sample buffer and
best-effort-pushes it to the delivery queue.  (The optional user callback is
invoked with the same chunk; its effect lives in the agent state and is
modelled at the controller level.) -/
def parecLoop (c : CaptureState) : List (List ℚ) → CaptureState
  | [] => c
  | ch :: rest =>
    if c.isRecording && c.parecOpen then
      if ch.isEmpty then c
      else parecLoop { c with audioBuffer := audioCallbackAppend c.audioBuffer ch,
                              audioQueue := (putNowait c.audioQueue ch).1 } rest
    else c

/-- Observable side effects of `stop_monitor_capture`, reified in order. -/
inductive BEv
  | clearActiveFlag
  | sleep (seconds : ℚ)
  | terminateWait (timeoutSeconds : ℚ)
  | killOnTimeout
  | joinThread (timeoutSeconds : ℚ)
  | warnJoinTimeout
deriving DecidableEq

/-- `AudioCapture.stop_monitor_capture` (src/audio_capture.py lines 348 to
377): clears `is_recording`, sleeps 0.2 s, then if a parec process exists
terminates it with `wait(timeout=2)` escalating to `kill()` on timeout
(injected as `waitTimedOut`) and drops the handle, then if the reader thread
is alive joins it with timeout 1 s, logging a warning when the join times out
(injected as `joinTimedOut`).  Returns the new state plus the event trace. -/
def stopMonitorCapture (c : CaptureState) (waitTimedOut joinTimedOut threadAlive : Bool) :
    CaptureState × List BEv :=
  let c1 : CaptureState := { c with isRecording := false }
  let procEvs : List BEv :=
    if c.parecOpen then
      BEv.terminateWait 2 :: (if waitTimedOut then [BEv.killOnTimeout] else [])
    else []
  let c2 : CaptureState := if c.parecOpen then { c1 with parecOpen := false } else c1
  let joinEvs : List BEv :=
    if threadAlive then
      BEv.joinThread 1 :: (if joinTimedOut then [BEv.warnJoinTimeout] else [])
    else []
  (c2, BEv.clearActiveFlag :: BEv.sleep (1/5) :: (procEvs ++ joinEvs))

/-- Observable side effects of the controller methods, reified in order. -/
inductive Ev
  | sleep (seconds : ℚ)
  | backendStop
  | sendStatus (status : String)
  | spawnProcessingThread
deriving DecidableEq

/-- The status string posted while recording. -/
def statusRecording : String :=
  "recording"

/-- The status string posted while the recorded audio is processed. -/
def statusProcessing : String :=
  "processing"

/-- State of one `DexterMeetAgent` (src/main.py lines 53 to 77): the
controller `is_recording` flag, the recording buffer the capture callback
fills, and the embedded `AudioCapture` state. -/
structure AgentState where
  isRecording : Bool
  recordingBuffer : List (List ℚ)
  capture : CaptureState
deriving DecidableEq

/-- `DexterMeetAgent.start_controlled_recording` (src/main.py lines 115 to
143).  Returns True at once when already recording.  Otherwise the try block
sets the flag, resets the buffer, registers the callback, and starts backend
B; `raiseAt = some k` injects an exception at statement `k` of the try block
(0 = setting the flag, 1 = resetting the buffer, 2 = registering the callback
and taking the start timestamp, 3 and beyond = the backend call or later), on
which the handler prints the error, clears the flag and returns False.  With
no exception the call succeeds exactly when the backend start succeeded
(`spawnOk`), and on backend failure the flag is cleared again. -/
def startControlledRecording (s : AgentState) (spawnOk : Bool) (raiseAt : Option Nat) :
    Bool × AgentState × List Ev :=
  if s.isRecording then (true, s, [])
  else
    let s0 : AgentState := { s with isRecording := true }
    let s1 : AgentState := { s0 with recordingBuffer := [] }
    let br := startMonitorCaptureParec s1.capture spawnOk
    let s2 : AgentState := { s1 with capture := br.2 }
    match raiseAt with
    | some 0 => (false, { s with isRecording := false }, [])
    | some 1 => (false, { s0 with isRecording := false }, [])
    | some 2 => (false, { s1 with isRecording := false }, [])
    | some _ => (false, { s2 with isRecording := false }, [])
    | none =>
      if br.1 then (true, s2, [Ev.sendStatus statusRecording])
      else (false, { s2 with isRecording := false }, [])

/-- `DexterMeetAgent.stop_recording_speakers` (src/main.py lines 145 to 174).
Returns True at once when not recording.  Otherwise the try block sleeps
`config.audio.end_buffer_seconds`, stops the monitor capture, clears the
flag, posts the processing status, and spawns the daemon thread that runs
`_process_recorded_audio`, then returns True.  `raiseAt = some k` injects an
exception at statement `k` (0 = the sleep, 1 = the backend stop, 2 = the flag
assignment, 3 = the status post, 4 and beyond = the thread spawn); the
handler only prints the error and returns False, leaving whatever state the
completed statements produced. -/
def stopRecordingSpeakers (s : AgentState) (waitTimedOut joinTimedOut threadAlive : Bool)
    (raiseAt : Option Nat) : Bool × AgentState × List Ev :=
  if s.isRecording then
    let bs := stopMonitorCapture s.capture waitTimedOut joinTimedOut threadAlive
    let s1 : AgentState := { s with capture := bs.1 }
    let s2 : AgentState := { s1 with isRecording := false }
    match raiseAt with
    | some 0 => (false, s, [])
    | some 1 => (false, s, [Ev.sleep audioConfig.endBufferSeconds])
    | some 2 => (false, s1, [Ev.sleep audioConfig.endBufferSeconds, Ev.backendStop])
    | some 3 => (false, s2, [Ev.sleep audioConfig.endBufferSeconds, Ev.backendStop])
    | some _ =>
      (false, s2,
        [Ev.sleep audioConfig.endBufferSeconds, Ev.backendStop, Ev.sendStatus statusProcessing])
    | none =>
      (true, s2,
        [Ev.sleep audioConfig.endBufferSeconds, Ev.backendStop, Ev.sendStatus statusProcessing,
         Ev.spawnProcessingThread])
  else (true, s, [])

/-- Outcome of `_process_recorded_audio` up to the hand-off to the
transcription collaborator: the status message sent on each rejection path,
or the sample array passed to `self.transcriber.transcribe`. -/
inductive ProcessOutcome
  | noAudio
  | tooShort
  | noSignal
  | transcribe (audio : List ℚ)
deriving DecidableEq

/-- `np.max(np.abs(combined_audio))` (src/main.py line 189). -/
def maxAmplitude (xs : List ℚ) : ℚ :=
  xs.foldl (fun m x => max m |x|) 0

/-- `DexterMeetAgent._process_recorded_audio` (src/main.py lines 176 to 207),
up to the transcription call: an empty buffer short-circuits; otherwise the
frames are concatenated, a duration below 0.3 s is rejected as too short, a
peak absolute amplitude below 1e-4 is rejected as no signal, and otherwise
the full concatenated array is handed to the transcriber. -/
def processRecordedAudio (buffer : List (List ℚ)) : ProcessOutcome :=
  if buffer = [] then ProcessOutcome.noAudio
  else if (buffer.flatten.length : ℚ) / (audioConfig.sampleRate : ℚ) < 3/10 then
    ProcessOutcome.tooShort
  else if maxAmplitude buffer.flatten < 1/10000 then ProcessOutcome.noSignal
  else ProcessOutcome.transcribe buffer.flatten

/-- A capture state with an active parec capture. -/
def captureActive : CaptureState :=
  ⟨true, [], newAudioQueue, false, true⟩

/-- A capture state with nothing running. -/
def captureIdle : CaptureState :=
  ⟨false, [], newAudioQueue, false, false⟩

/-- An agent with an active recording session. -/
def agentActive : AgentState :=
  ⟨true, [], captureActive⟩

/-- An agent with no active recording session. -/
def agentIdle : AgentState :=
  ⟨false, [], captureIdle⟩

/-- A fixed operation sequence used to instantiate the buffer theorem. -/
def sampleBufOps : List BufOp :=
  [BufOp.append [1, 2], BufOp.drain, BufOp.append [3], BufOp.drain]

theorem getBufferedAudio_clear (buf : List (List ℚ)) :
    getBufferedAudio buf true = (buf.flatten, []) := by
  cases buf with
  | nil => rfl
  | cons f rest => rfl

theorem runBufOps_conservation (ops : List BufOp) :
    ∀ buf : List (List ℚ),
      (runBufOps buf ops).2.flatten ++ (runBufOps buf ops).1.flatten =
        buf.flatten ++ (appendsOf ops).flatten := by
  induction ops with
  | nil => intro buf; simp [runBufOps, appendsOf]
  | cons op rest ih =>
    intro buf
    cases op with
    | append f =>
      have h := ih (audioCallbackAppend buf f)
      simp only [runBufOps, appendsOf]
      rw [h]
      simp [audioCallbackAppend, List.append_assoc]
    | drain =>
      have h := ih []
      simp only [runBufOps, appendsOf, getBufferedAudio_clear]
      simp only [List.flatten_cons]
      rw [List.append_assoc, h]
      simp

theorem runBufOps_final_empty (ops : List BufOp) (h : endsWithDrain ops = true) :
    ∀ buf : List (List ℚ), (runBufOps buf ops).1 = [] := by
  induction ops with
  | nil => simp [endsWithDrain] at h
  | cons op rest ih =>
    intro buf
    cases rest with
    | nil =>
      cases op with
      | append f => simp [endsWithDrain] at h
      | drain => simp [runBufOps, getBufferedAudio_clear]
    | cons op2 rest2 =>
      have h2 : endsWithDrain (op2 :: rest2) = true := by
        cases op with
        | append f => exact h
        | drain => exact h
      cases op with
      | append f => exact ih h2 (audioCallbackAppend buf f)
      | drain => simp only [runBufOps]; exact ih h2 _

theorem pushAll_unbounded_aux {α : Type} (frames : List α) :
    ∀ q : PyQueue α, q.maxsize = 0 →
      (pushAll q frames).items = q.items ++ frames ∧ pushAllSucceeds q frames = true := by
  induction frames with
  | nil => intro q _; simp [pushAll, pushAllSucceeds]
  | cons x xs ih =>
    intro q hq
    have hput : putNowait q x = ({ q with items := q.items ++ [x] }, true) := by
      simp [putNowait, hq]
    have h2 := ih { q with items := q.items ++ [x] } hq
    constructor
    · simp only [pushAll, hput]
      rw [h2.1]
      simp
    · simp only [pushAllSucceeds, hput]
      simpa using h2.2

theorem findFirstDevice_eq_find (p : AudioDevice → Bool) (l : List AudioDevice) :
    findFirstDevice p l = l.find? p := by
  induction l with
  | nil => rfl
  | cons d rest ih => cases h : p d <;> simp [findFirstDevice, List.find?, h, ih]

theorem parecLoop_stopped (c : CaptureState) (h : c.isRecording = false) :
    ∀ chunks : List (List ℚ), parecLoop c chunks = c := by
  intro chunks
  cases chunks with
  | nil => rfl
  | cons ch rest => simp [parecLoop, h]

/-- C1: for every finite serialisation of the lock-atomic append and
drain-and-clear operations on the sample buffer, the in-order concatenation of
the drained sample arrays together with what is still buffered equals the
in-order concatenation of all appended frames (no frame lost, duplicated or
reordered); in particular, when the sequence ends with a drain the drained
output is exactly the appended input, and every drain with `clear_buffer=True`
leaves the buffer empty. -/
theorem c1_buffer_conservation (ops : List BufOp) :
    ((runBufOps [] ops).2.flatten ++ (runBufOps [] ops).1.flatten = (appendsOf ops).flatten)
    ∧ (endsWithDrain ops = true →
        (runBufOps [] ops).2.flatten = (appendsOf ops).flatten)
    ∧ (∀ buf : List (List ℚ), (getBufferedAudio buf true).2 = []) := by
  refine ⟨?_, ?_, ?_⟩
  · have h := runBufOps_conservation ops []
    simpa using h
  · intro he
    have h := runBufOps_conservation ops []
    rw [runBufOps_final_empty ops he []] at h
    simpa using h
  · intro buf
    rw [getBufferedAudio_clear]

/-- Witness for C1 at a concrete operation sequence. -/
theorem c1_buffer_conservation_witness :
    endsWithDrain sampleBufOps = true ∧
    (runBufOps [] sampleBufOps).2.flatten = (appendsOf sampleBufOps).flatten :=
  ⟨by decide, (c1_buffer_conservation sampleBufOps).2.1 (by decide)⟩

/-- C2: the controller start is idempotent while a session is active (returns
True with the whole state, hence the one active backend, untouched) and the
controller stop is idempotent while idle (returns True, performs no backend
operation and emits no event). -/
theorem c2_controller_idempotent (s t : AgentState)
    (hs : s.isRecording = true) (ht : t.isRecording = false) :
    (∀ (spawnOk : Bool) (raiseAt : Option Nat),
        startControlledRecording s spawnOk raiseAt = (true, s, []))
    ∧ (∀ (waitTimedOut joinTimedOut threadAlive : Bool) (raiseAt : Option Nat),
        stopRecordingSpeakers t waitTimedOut joinTimedOut threadAlive raiseAt = (true, t, [])) := by
  constructor
  · intro ok r
    simp [startControlledRecording, hs]
  · intro w j ta r
    simp [stopRecordingSpeakers, ht]

/-- Witness for C2 at concrete active and idle agent states. -/
theorem c2_controller_idempotent_witness :
    startControlledRecording agentActive true none = (true, agentActive, []) ∧
    stopRecordingSpeakers agentIdle false false true none = (true, agentIdle, []) :=
  ⟨(c2_controller_idempotent agentActive agentIdle (by decide) (by decide)).1 true none,
   (c2_controller_idempotent agentActive agentIdle (by decide) (by decide)).2 false false true none⟩

/-- C3: post-stop validation of a non-empty recording: a total duration below
0.3 s is rejected as too short regardless of amplitude; otherwise a peak
absolute amplitude below 1e-4 is rejected as no signal; otherwise the complete
concatenated sample array is forwarded unchanged to the transcriber. -/
theorem c3_audio_validation (buffer : List (List ℚ)) (h : buffer ≠ []) :
    ((buffer.flatten.length : ℚ) / (audioConfig.sampleRate : ℚ) < 3/10 →
        processRecordedAudio buffer = ProcessOutcome.tooShort)
    ∧ (¬((buffer.flatten.length : ℚ) / (audioConfig.sampleRate : ℚ) < 3/10) →
        maxAmplitude buffer.flatten < 1/10000 →
        processRecordedAudio buffer = ProcessOutcome.noSignal)
    ∧ (¬((buffer.flatten.length : ℚ) / (audioConfig.sampleRate : ℚ) < 3/10) →
        ¬(maxAmplitude buffer.flatten < 1/10000) →
        processRecordedAudio buffer = ProcessOutcome.transcribe buffer.flatten) := by
  unfold processRecordedAudio
  rw [if_neg h]
  refine ⟨?_, ?_, ?_⟩
  · intro hd
    rw [if_pos hd]
  · intro hd ha
    rw [if_neg hd, if_pos ha]
  · intro hd ha
    rw [if_neg hd, if_neg ha]

/-- Witness for C3: a single short loud frame is rejected as too short. -/
theorem c3_audio_validation_witness :
    processRecordedAudio [[1/2]] = ProcessOutcome.tooShort :=
  (c3_audio_validation [[1/2]] (by decide)).1 (by norm_num [audioConfig])

/-- Counterexample to C4: the delivery queue is constructed as `queue.Queue()`
with the default `maxsize = 0`, which in Python means no capacity bound at
all, so there is no capacity N that overflows: pushing two frames retains both
(nothing is dropped and `queue.Full` is never raised). -/
theorem c4_counterexample :
    newAudioQueue.maxsize = 0 ∧
    (pushAll newAudioQueue [[1], [2]]).items = [[1], [2]] ∧
    pushAllSucceeds newAudioQueue [[1], [2]] = true ∧
    ¬(pushAll newAudioQueue [[1], [2]]).items.length = 1 := by
  decide

/-- C4 (amended): the delivery queue is unbounded; `put_nowait` never blocks
and never raises `queue.Full`, so every pushed frame is retained in FIFO
order and the drop-newest-with-warning handler is unreachable. -/
theorem c4_queue_unbounded (frames : List (List ℚ)) :
    (pushAll newAudioQueue frames).items = frames ∧
    pushAllSucceeds newAudioQueue frames = true := by
  have h := pushAll_unbounded_aux frames newAudioQueue rfl
  constructor
  · rw [h.1]
    rfl
  · exact h.2

/-- C5: stopping an active session first sleeps the configured end-buffer
padding (`config.audio.end_buffer_seconds`, default 1.5 s), only then stops
the backend, then posts the processing status and hands the buffer to a
spawned worker thread, returning True without any inline processing. -/
theorem c5_stop_sequence (s : AgentState) (waitTimedOut joinTimedOut threadAlive : Bool)
    (h : s.isRecording = true) :
    stopRecordingSpeakers s waitTimedOut joinTimedOut threadAlive none =
      (true,
        { s with capture := (stopMonitorCapture s.capture waitTimedOut joinTimedOut threadAlive).1,
                 isRecording := false },
        [Ev.sleep audioConfig.endBufferSeconds, Ev.backendStop, Ev.sendStatus statusProcessing,
         Ev.spawnProcessingThread])
    ∧ audioConfig.endBufferSeconds = 3/2 := by
  constructor
  · simp [stopRecordingSpeakers, h]
  · rfl

/-- Witness for C5 at a concrete active agent state. -/
theorem c5_stop_sequence_witness :
    stopRecordingSpeakers agentActive false false true none =
      (true,
        { agentActive with
          capture := (stopMonitorCapture agentActive.capture false false true).1,
          isRecording := false },
        [Ev.sleep audioConfig.endBufferSeconds, Ev.backendStop, Ev.sendStatus statusProcessing,
         Ev.spawnProcessingThread])
    ∧ audioConfig.endBufferSeconds = 3/2 :=
  c5_stop_sequence agentActive false false true (by decide)

/-- Counterexample to C6: on the one-device inventory containing the input
device named "sysdefault" the code selects that device through rule 3 (which
tests substring containment of "default"), while the policy as the claim
words it (rule 3 = literally named "default") selects nothing at all. -/
theorem c6_counterexample :
    findMonitorDevice [sysdefaultDevice] = some sysdefaultDevice ∧
    sysdefaultDevice.name ≠ "default" ∧
    findMonitorDeviceClaimC6 [sysdefaultDevice] = none := by
  decide

/-- C6 (amended): the monitor policy returns the first device matching its
ordered rules, where rule 3 is "the lowered name contains the substring
`default`" rather than literal equality; on the spec example inventory it
selects "HDA Analog Monitor". -/
theorem c6_monitor_policy :
    (∀ ds : List AudioDevice, findMonitorDevice ds = findMonitorDeviceSpec ds)
    ∧ findMonitorDevice exampleInventory = some hdaMonitorDevice := by
  constructor
  · intro ds
    unfold findMonitorDevice findMonitorDeviceSpec
    rw [← findFirstDevice_eq_find, ← findFirstDevice_eq_find, ← findFirstDevice_eq_find,
      ← findFirstDevice_eq_find]
    cases findFirstDevice monRule1 ds <;> cases findFirstDevice monRule2 ds <;>
      cases findFirstDevice monRule3 ds <;> cases findFirstDevice monRule4 ds <;>
      simp [Option.orElse]
  · decide

/-- Counterexample to C7: even when the selector has chosen a monitor device,
the parec command spawned by `start_monitor_capture_parec` does not mention
the selected source anywhere; it differs from the command the claim
describes, which would pass the selected name after `--device`. -/
theorem c7_counterexample :
    findMonitorDevice [hdaMonitorDevice] = some hdaMonitorDevice ∧
    parecCommand ≠ parecCommandClaimC7 hdaMonitorDevice.name ∧
    ¬ hdaMonitorDevice.name ∈ parecCommand := by
  decide

/-- C7 (amended): starting Backend B always spawns parec with the hard-coded
monitor source `alsa_output.pci-0000_08_00.6.analog-stereo.monitor` (ignoring
whichever device was selected), the configured sample rate 16000, channel
count 1, and 16-bit little-endian raw format with no container framing. -/
theorem c7_parec_arguments :
    parecCommand =
      ["parec", "--device", "alsa_output.pci-0000_08_00.6.analog-stereo.monitor",
       "--rate", "16000", "--channels", "1", "--format", "s16le", "--raw"] := by
  decide

/-- Counterexample to C8: an exception raised inside the backend-stop call of
`stop_recording_speakers` (statement 1 of its try block) is reported as False,
but the `except` handler never resets `self.is_recording`, so the controller
stays in the Recording state instead of reaching Idle. -/
theorem c8_counterexample :
    (stopRecordingSpeakers agentActive false false true (some 1)).1 = false ∧
    (stopRecordingSpeakers agentActive false false true (some 1)).2.1.isRecording = true := by
  decide

/-- C8 (amended): an exception at any statement of the start path reports
failure and leaves the controller Idle (`is_recording` false); an exception
during the stop path of an active session reports failure, but the controller
remains in the Recording state whenever the exception hits before the flag
assignment (statements 0 to 2: the padding sleep, the backend stop, the flag
write) and reaches Idle only when it hits after the flag was cleared. -/
theorem c8_exception_states (s t : AgentState) (spawnOk : Bool) (k : Nat)
    (waitTimedOut joinTimedOut threadAlive : Bool)
    (hs : s.isRecording = false) (ht : t.isRecording = true) :
    ((startControlledRecording s spawnOk (some k)).1 = false ∧
      (startControlledRecording s spawnOk (some k)).2.1.isRecording = false)
    ∧ ((stopRecordingSpeakers t waitTimedOut joinTimedOut threadAlive (some k)).1 = false ∧
      ((stopRecordingSpeakers t waitTimedOut joinTimedOut threadAlive (some k)).2.1.isRecording
          = true ↔ k < 3)) := by
  constructor
  · match k with
    | 0 => exact ⟨by simp [startControlledRecording, hs], by simp [startControlledRecording, hs]⟩
    | 1 => exact ⟨by simp [startControlledRecording, hs], by simp [startControlledRecording, hs]⟩
    | 2 => exact ⟨by simp [startControlledRecording, hs], by simp [startControlledRecording, hs]⟩
    | n + 3 => exact ⟨by simp [startControlledRecording, hs], by simp [startControlledRecording, hs]⟩
  · match k with
    | 0 =>
      refine ⟨by simp [stopRecordingSpeakers, ht], ?_⟩
      simp [stopRecordingSpeakers, ht]
    | 1 =>
      refine ⟨by simp [stopRecordingSpeakers, ht], ?_⟩
      simp [stopRecordingSpeakers, ht]
    | 2 =>
      refine ⟨by simp [stopRecordingSpeakers, ht], ?_⟩
      simp [stopRecordingSpeakers, ht]
    | 3 =>
      refine ⟨by simp [stopRecordingSpeakers, ht], ?_⟩
      simp [stopRecordingSpeakers, ht]
    | n + 4 =>
      refine ⟨by simp [stopRecordingSpeakers, ht], ?_⟩
      simp [stopRecordingSpeakers, ht]

/-- Witness for C8 at concrete idle/active agents with the exception injected
at statement 1. -/
theorem c8_exception_states_witness :
    ((startControlledRecording agentIdle true (some 1)).1 = false ∧
      (startControlledRecording agentIdle true (some 1)).2.1.isRecording = false)
    ∧ ((stopRecordingSpeakers agentActive false false true (some 1)).1 = false ∧
      ((stopRecordingSpeakers agentActive false false true (some 1)).2.1.isRecording
          = true ↔ 1 < 3)) :=
  c8_exception_states agentIdle agentActive true 1 false false true (by decide) (by decide)

/-- C9: stopping Backend B with a live parec process and reader thread first
clears the active flag, sleeps the 0.2 s grace interval, terminates the
process with a 2 s bounded wait escalating to kill on timeout, then joins the
worker with a 1 s bounded wait, warning (not failing) when the join overruns;
afterwards the worker loop, seeing the cleared flag, performs no further
buffer writes whatever chunks arrive. -/
theorem c9_stop_protocol (c : CaptureState) (waitTimedOut joinTimedOut : Bool)
    (h : c.parecOpen = true) :
    stopMonitorCapture c waitTimedOut joinTimedOut true =
      ({ c with isRecording := false, parecOpen := false },
        BEv.clearActiveFlag :: BEv.sleep (1/5) ::
          ((BEv.terminateWait 2 :: (if waitTimedOut then [BEv.killOnTimeout] else [])) ++
            (BEv.joinThread 1 :: (if joinTimedOut then [BEv.warnJoinTimeout] else []))))
    ∧ (∀ chunks : List (List ℚ),
        parecLoop (stopMonitorCapture c waitTimedOut joinTimedOut true).1 chunks =
          (stopMonitorCapture c waitTimedOut joinTimedOut true).1) := by
  constructor
  · simp [stopMonitorCapture, h]
  · intro chunks
    apply parecLoop_stopped
    simp [stopMonitorCapture, h]

/-- Witness for C9 at a concrete capture state with an open parec process. -/
theorem c9_stop_protocol_witness :
    stopMonitorCapture captureActive false false true =
      ({ captureActive with isRecording := false, parecOpen := false },
        BEv.clearActiveFlag :: BEv.sleep (1/5) ::
          ((BEv.terminateWait 2 :: (if false then [BEv.killOnTimeout] else [])) ++
            (BEv.joinThread 1 :: (if false then [BEv.warnJoinTimeout] else []))))
    ∧ (∀ chunks : List (List ℚ),
        parecLoop (stopMonitorCapture captureActive false false true).1 chunks =
          (stopMonitorCapture captureActive false false true).1) :=
  c9_stop_protocol captureActive false false (by decide)

/-- C10: at the backend interface a start while a capture is already active is
rejected, not idempotent: both `start_capture` and
`start_monitor_capture_parec` return False and leave the whole capture state
(flag, buffer, queue, stream, process) unchanged. -/
theorem c10_backend_start_rejected (c : CaptureState) (h : c.isRecording = true) :
    (∀ (deviceIndex : Option Nat) (devices : List AudioDevice) (openOk : Bool),
        startCapture c deviceIndex devices openOk = (false, c))
    ∧ (∀ spawnOk : Bool, startMonitorCaptureParec c spawnOk = (false, c)) := by
  constructor
  · intro dix devs ok
    simp [startCapture, h]
  · intro ok
    simp [startMonitorCaptureParec, h]

/-- Witness for C10 at a concrete active capture state. -/
theorem c10_backend_start_rejected_witness :
    startCapture captureActive none exampleInventory true = (false, captureActive) ∧
    startMonitorCaptureParec captureActive true = (false, captureActive) :=
  ⟨(c10_backend_start_rejected captureActive (by decide)).1 none exampleInventory true,
   (c10_backend_start_rejected captureActive (by decide)).2 true⟩
